import Mathlib

/-!
Shallow embedding of `heat/engine/resources/volume.py` and
`heat/engine/resources/stack.py`: the volume create/delete polling logic,
the attach/detach tasks, and the nested-stack create/update/attribute
resolution.  Generator-based tasks are embedded as functions from their
environment (the sequence of observations the task would make through the
cloud-provider client) to the trace of external events they perform —
with explicit `suspend` markers at each `yield` — together with the
task's final outcome.
-/

namespace Heat

/-- The kind of volume resource: `Volume` (the AWS resource) or its
subclass `CinderVolume`.  The two differ in `_volume_creating_status`
(volume.py lines 59 and 380). -/
inductive VolKind where
  | aws
  | cinder
deriving DecidableEq, Repr

/-- `_volume_creating_status`: class attribute of `Volume`
(`['creating', 'restoring-backup']`, volume.py line 59) overridden by
`CinderVolume` (`['creating', 'restoring-backup', 'downloading']`,
volume.py line 380). -/
def volume_creating_status : VolKind → List String
  | .aws => ["creating", "restoring-backup"]
  | .cinder => ["creating", "restoring-backup", "downloading"]

/-- `Volume.check_create_complete` (volume.py lines 102-110) after the
`vol.get()` refresh: given the observed status, return `True` on
`'available'`, `False` when the status is in `_volume_creating_status`,
and otherwise raise `exception.Error(vol.status)` — embedded as
`Except.error status`. -/
def check_create_complete (k : VolKind) (status : String) : Except String Bool :=
  if status = "available" then .ok true
  else if status ∈ volume_creating_status k then .ok false
  else .error status

/-- The in-progress set the spec claims for a creation, as a function of
whether a restore source is supplied (spec section 4.3): no restore gives
`{"creating"}`, restore gives
`{"creating", "restoring-backup", "downloading"}`.  Used only to compare
the spec's words with the code. -/
def spec_creating_set (hasRestoreSource : Bool) : List String :=
  if hasRestoreSource then ["creating", "restoring-backup", "downloading"]
  else ["creating"]

end Heat

namespace Heat

/-- External events performed by a task, in order.  `suspend` marks a
`yield` (a suspension point of the generator); the other constructors are
the calls made to the cloud-provider clients or to the resource itself. -/
inductive Ev where
  | getVolume
  | createBackup
  | getBackup
  | deleteVolume
  | clearResourceId
  | attachReq
  | setAttachmentId
  | detachReq
  | suspend
deriving DecidableEq, Repr

/-- Result of one volume lookup (`volumes.get` / `vol.get`): either the
client raises `NotFound` or it returns the volume's status string. -/
inductive VolObs where
  | notFound
  | status (s : String)
deriving DecidableEq, Repr

/-- Final outcome of a task run: normal return, an uncaught
`exception.Error` carrying its message, or `pending` when the supplied
finite observation sequence ran out while the task was still polling. -/
inductive Outcome where
  | success
  | failed (msg : String)
  | pending
deriving DecidableEq, Repr

/-- A task run: the trace of external events (with `suspend` markers at
each yield) and the outcome. -/
structure TaskRun where
  events : List Ev
  outcome : Outcome
deriving DecidableEq, Repr

/-- `TaskRunner.start()` runs the task up to and including its first
suspension; this returns the events that remain for later `step()`
calls (everything after the first `suspend`, or nothing if the task
completed during `start`). -/
def afterStart : List Ev → List Ev
  | [] => []
  | .suspend :: r => r
  | _ :: r => afterStart r

/-- Results of the successive `step()` calls made after `start()` on the
remaining events of a successfully completing task: each `step` runs to
the next suspension and reports `false`, and the step that exhausts the
task (or a `step` on an already-finished task) reports `true`. -/
def pollAux : List Ev → List Bool
  | [] => [true]
  | .suspend :: r => false :: pollAux r
  | _ :: r => pollAux r

/-- The sequence of booleans returned by repeated `check_*_complete`
polls (`delete_task.step()` etc.) after the `handle_*` call started the
task, for a task that completes successfully. -/
def pollBools (evs : List Ev) : List Bool := pollAux (afterStart evs)

/-- The events a `handle_*` call itself executes when it only `start()`s
the task: everything strictly before the first suspension. -/
def startEvents : List Ev → List Ev
  | [] => []
  | .suspend :: _ => []
  | e :: r => e :: startEvents r

/-- The polling loop of `Volume._backup` (volume.py lines 114-116):
`while backup.status == 'creating': yield; backup.get()`.  Takes the
current backup status and the remaining `backup.get()` refresh results;
returns the events and the first non-`'creating'` status observed (or
`none` if the refresh list ran out). -/
def backupPoll : String → List String → List Ev × Option String
  | st, gets =>
    if st = "creating" then
      match gets with
      | [] => ([.suspend], none)
      | g :: rest =>
        (.suspend :: .getBackup :: (backupPoll g rest).1, (backupPoll g rest).2)
    else ([], some st)

/-- `Volume._backup` (volume.py lines 112-118): create the backup, poll
while `'creating'`, then raise `exception.Error(backup.status)` unless
the final status is `'available'`. -/
def backupRun (bInit : String) (bGets : List String) : TaskRun :=
  ⟨.createBackup :: (backupPoll bInit bGets).1,
    match (backupPoll bInit bGets).2 with
    | none => .pending
    | some st => if st = "available" then .success else .failed st⟩

/-- The tail of `Volume._delete` after `vol.delete()` (volume.py lines
135-137): `while True: yield; vol.get()`; the loop exits only when
`vol.get()` raises `NotFound`, which the surrounding handler treats as
success (and clears `resource_id`). -/
def deleteWait : List VolObs → List Ev × Outcome
  | [] => ([.suspend], .pending)
  | .notFound :: _ => ([.suspend, .getVolume, .clearResourceId], .success)
  | .status _ :: rest =>
      (.suspend :: .getVolume :: (deleteWait rest).1, (deleteWait rest).2)

/-- `Volume._delete` from the `vol.status` check onward (volume.py lines
130-137): refuse with `exception.Error('Volume in use')` when the
current status is `'in-use'`, otherwise issue `vol.delete()` and wait
for `NotFound`. -/
def deleteFromStatus (s : String) (rest : List VolObs) : List Ev × Outcome :=
  if s = "in-use" then ([], .failed "Volume in use")
  else (.deleteVolume :: (deleteWait rest).1, (deleteWait rest).2)

/-- Environment of one `Volume._delete` run: the resource id, the
successive results of getting the volume (the initial `volumes.get`
followed by each `vol.get` refresh), and the backup-status observations
used when a pre-delete backup is requested. -/
structure DeleteEnv where
  resource_id : Option String
  volGets : List VolObs
  bInit : String
  bGets : List String

/-- `Volume._delete` (volume.py lines 120-139): a no-op when
`resource_id` is unset; otherwise fetch the volume (`NotFound` means
already deleted: clear the id and succeed), optionally run `_backup` to
completion and re-fetch the volume, refuse if `'in-use'`, then delete
and wait for the volume to disappear. -/
def runVolumeDelete (backup : Bool) (env : DeleteEnv) : TaskRun :=
  match env.resource_id with
  | none => ⟨[], .success⟩
  | some _ =>
    match env.volGets with
    | [] => ⟨[.getVolume], .pending⟩
    | obs :: rest =>
      match obs with
      | .notFound => ⟨[.getVolume, .clearResourceId], .success⟩
      | .status s0 =>
        if backup then
          match (backupRun env.bInit env.bGets).outcome with
          | .pending =>
              ⟨.getVolume :: (backupRun env.bInit env.bGets).events, .pending⟩
          | .failed m =>
              ⟨.getVolume :: (backupRun env.bInit env.bGets).events, .failed m⟩
          | .success =>
            match rest with
            | [] =>
                ⟨.getVolume :: (backupRun env.bInit env.bGets).events ++
                  [.getVolume], .pending⟩
            | .notFound :: _ =>
                ⟨.getVolume :: (backupRun env.bInit env.bGets).events ++
                  [.getVolume, .clearResourceId], .success⟩
            | .status s1 :: rest2 =>
                ⟨.getVolume :: (backupRun env.bInit env.bGets).events ++
                  .getVolume :: (deleteFromStatus s1 rest2).1,
                  (deleteFromStatus s1 rest2).2⟩
        else
          ⟨.getVolume :: (deleteFromStatus s0 rest).1,
            (deleteFromStatus s0 rest).2⟩

/-- Result of one `nova().volumes.delete_server_volume` call as the
detach task can observe it: success, or a `BadRequest` or `NotFound`
exception. -/
inductive DetachRes where
  | ok
  | badRequest
  | notFound
deriving DecidableEq, Repr

/-- The guarded detach request of `VolumeDetachTask.__call__` (volume.py
lines 244-248 and 258-263): `delete_server_volume` inside a
`try/except (BadRequest, NotFound)` whose handler only logs — each of
the three possible results leaves just the issued request in the trace
and execution continues. -/
def delete_server_volume_swallowed : DetachRes → List Ev
  | .ok => [.detachReq]
  | .badRequest => [.detachReq]
  | .notFound => [.detachReq]

/-- The polling loop of `VolumeDetachTask.__call__` (volume.py lines
254-268): while the status is `'in-use'` or `'detaching'`, yield,
re-issue the (guarded) detach request, and refresh; on leaving the loop,
succeed on `'available'` and raise `exception.Error(vol.status)`
otherwise; a `NotFound` from `vol.get()` is caught by the surrounding
handler (lines 270-271) as success.  `i` numbers the detach requests
already issued. -/
def detachLoop (dres : Nat → DetachRes) : String → List VolObs → Nat → List Ev × Outcome
  | s, gets, i =>
    if s = "in-use" ∨ s = "detaching" then
      match gets with
      | [] => (.suspend :: delete_server_volume_swallowed (dres i), .pending)
      | .notFound :: _ =>
          (.suspend :: delete_server_volume_swallowed (dres i) ++ [.getVolume],
            .success)
      | .status s2 :: rest =>
          (.suspend :: delete_server_volume_swallowed (dres i) ++
              .getVolume :: (detachLoop dres s2 rest (i + 1)).1,
            (detachLoop dres s2 rest (i + 1)).2)
    else if s = "available" then ([], .success)
    else ([], .failed s)

/-- Environment of one `VolumeDetachTask.__call__` run: whether the
initial `volumes.get` finds the volume, the result of each successive
detach request, and the results of the `vol.get()` refreshes. -/
structure DetachEnv where
  volFound : Bool
  dres : Nat → DetachRes
  volGets : List VolObs

/-- `VolumeDetachTask.__call__` (volume.py lines 232-271): return at once
if the volume is not found; otherwise issue the guarded detach request,
yield, refresh the volume (a `NotFound` here is caught as success), and
run the detach polling loop. -/
def runVolumeDetach (env : DetachEnv) : TaskRun :=
  if env.volFound then
    match env.volGets with
    | [] =>
        ⟨.getVolume :: delete_server_volume_swallowed (env.dres 0) ++
          [.suspend], .pending⟩
    | .notFound :: _ =>
        ⟨.getVolume :: delete_server_volume_swallowed (env.dres 0) ++
          [.suspend, .getVolume], .success⟩
    | .status s :: rest =>
        ⟨.getVolume :: delete_server_volume_swallowed (env.dres 0) ++
            .suspend :: .getVolume :: (detachLoop env.dres s rest 1).1,
          (detachLoop env.dres s rest 1).2⟩
  else ⟨[.getVolume], .success⟩

/-- The polling loop of `VolumeAttachTask.__call__` (volume.py lines
197-204): while the volume status is `'available'` or `'attaching'`,
yield and refresh; on leaving the loop, succeed when the status is
`'in-use'` and raise `exception.Error(vol.status)` otherwise. -/
def attachLoop : String → List String → List Ev × Outcome
  | s, gets =>
    if s = "available" ∨ s = "attaching" then
      match gets with
      | [] => ([.suspend], .pending)
      | g :: rest =>
          (.suspend :: .getVolume :: (attachLoop g rest).1, (attachLoop g rest).2)
    else if s = "in-use" then ([], .success)
    else ([], .failed s)

/-- Environment of one `VolumeAttachTask.__call__` run: the attachment
id the attach request returns (`va.id`), and the statuses returned by
the initial `volumes.get` and each `vol.get()` refresh. -/
structure AttachEnv where
  va_id : String
  volGets : List String

/-- `VolumeAttachTask.__call__` (volume.py lines 186-206): issue the
attach request, record the attachment id (`self.attachment_id = va.id`,
the `setAttachmentId` event), yield, fetch the volume and run the attach
polling loop. -/
def runVolumeAttach (env : AttachEnv) : TaskRun :=
  match env.volGets with
  | [] => ⟨[.attachReq, .setAttachmentId, .suspend], .pending⟩
  | s :: rest =>
      ⟨.attachReq :: .setAttachmentId :: .suspend :: .getVolume ::
          (attachLoop s rest).1,
        (attachLoop s rest).2⟩

/-- The handle `VolumeAttachment.handle_create` returns: the resource id
it recorded and the events left for `check_create_complete` to step
through. -/
structure AttachHandle where
  resource_id : Option String
  remaining : List Ev
deriving DecidableEq, Repr

/-- `VolumeAttachment.handle_create` (volume.py lines 294-306): build the
attach task, `start()` the runner — executing the task's events up to its
first suspension — then `resource_id_set(attach_task.attachment_id)`;
the recorded id is the attachment id if the task's assignment to
`attachment_id` has executed by then, and the initial `None` otherwise.
Returns the runner as the handle. -/
def VolumeAttachment_handle_create (env : AttachEnv) : AttachHandle :=
  ⟨if Ev.setAttachmentId ∈ startEvents (runVolumeAttach env).events
      then some env.va_id else none,
    afterStart (runVolumeAttach env).events⟩

/-- Modelled from the spec: `scheduler.TaskRunner` is repository code not
under src/ (only its callers are here).  Per spec section 4.1, `start()`
executes the task synchronously up to its first suspension point, so a
`handle_*` call that starts a task and returns it as a handle has
executed exactly the events before the first suspension. -/
def runnerStartExecuted (r : TaskRun) : List Ev := startEvents r.events

/-- Modelled from the spec: calling the runner (`TaskRunner(...)()`, the
run-to-completion form of spec section 4.1) starts the task and steps it
until it finishes, so by the time the call returns the task's whole
trace has been executed. -/
def runnerCallExecuted (r : TaskRun) : List Ev := r.events

/-- `Volume.handle_delete` (volume.py lines 150-153): create a
`TaskRunner` for `_delete`, `start()` it and return it as the handle;
first component: the events executed before `handle_delete` returns;
second component: the events left for `check_delete_complete` (line 156)
to drive by stepping the runner. -/
def Volume_handle_delete (backup : Bool) (env : DeleteEnv) :
    List Ev × List Ev :=
  (runnerStartExecuted (runVolumeDelete backup env),
    afterStart (runVolumeDelete backup env).events)

/-- `VolumeAttachment.handle_delete` (volume.py lines 311-315): build the
detach task and invoke `scheduler.TaskRunner(detach_task)()` — run to
completion — before returning; it returns no handle, only `None`.
First component: the events executed before `handle_delete` returns;
second component: the detach task's outcome, which is already final. -/
def VolumeAttachment_handle_delete (env : DetachEnv) : List Ev × Outcome :=
  (runnerCallExecuted (runVolumeDetach env), (runVolumeDetach env).outcome)

/-- External events of the nested-stack lifecycle calls
(`heat/engine/resources/stack.py`). -/
inductive NSEv where
  | fetchTemplate
  | parseTemplate
  | createWithTemplate
  | updateWithTemplate
deriving DecidableEq, Repr

/-- Environment of a `NestedStack` create or update: the configured
`TemplateURL` property and the result of `urlfetch.get` on it — either
the template document or the message of the raised
`RequestException`/`IOError`. -/
structure NestedStackEnv where
  templateURL : String
  fetchResult : Except String String

/-- The `ValueError` message raised by `NestedStack.handle_create` /
`handle_update` on a fetch failure (stack.py lines 63-64 and 94-95):
`"Could not fetch remote template '%s': %s" % (url, str(r_exc))`. -/
def fetchErrorMsg (url cause : String) : String :=
  "Could not fetch remote template \x27" ++ url ++ ("\x27: " ++ cause)

/-- `NestedStack.handle_create` (stack.py lines 59-70): fetch the
template from the configured URL — converting a fetch failure into a
`ValueError` naming the URL and the cause — then parse it and delegate
to `create_with_template`. -/
def NestedStack_handle_create (env : NestedStackEnv) :
    List NSEv × Except String Unit :=
  match env.fetchResult with
  | .error cause =>
      ([.fetchTemplate], .error (fetchErrorMsg env.templateURL cause))
  | .ok _ => ([.fetchTemplate, .parseTemplate, .createWithTemplate], .ok ())

/-- `NestedStack.handle_update` (stack.py lines 84-101): re-resolve the
properties, fetch the template from the configured URL — converting a
fetch failure into the same `ValueError` — then parse it and delegate to
`update_with_template`. -/
def NestedStack_handle_update (env : NestedStackEnv) :
    List NSEv × Except String Unit :=
  match env.fetchResult with
  | .error cause =>
      ([.fetchTemplate], .error (fetchErrorMsg env.templateURL cause))
  | .ok _ => ([.fetchTemplate, .parseTemplate, .updateWithTemplate], .ok ())

/-- The characters after the first `'.'`, or `none` when there is no
dot: the data of Python's `key.partition('.')[-1]`. -/
def charsAfterFirstDot : List Char → Option (List Char)
  | [] => none
  | c :: rest => if c = '.' then some rest else charsAfterFirstDot rest

/-- `key.partition('.')[-1]` (stack.py line 79): everything after the
first dot, or the empty string when the key has no dot. -/
def partitionTail (key : String) : String :=
  match charsAfterFirstDot key.data with
  | none => ""
  | some cs => String.mk cs

/-- `NestedStack.FnGetAtt` (stack.py lines 75-79): raise
`InvalidTemplateAttribute(resource, key)` when the key is truthy
(non-empty) and does not start with `'Outputs.'`; otherwise forward
`get_output(key.partition('.')[-1])` to the child stack — the `.ok`
payload is the output name passed on. -/
def NestedStack_FnGetAtt (key : String) : Except String String :=
  if key ≠ "" ∧ "Outputs.".data.isPrefixOf key.data = false then .error key
  else .ok (partitionTail key)

/-- A status in the class's creating list yields a not-complete poll
(`'available'` is in neither class's list). -/
theorem check_create_ok_false_of_mem (k : VolKind) (s : String)
    (h : s ∈ volume_creating_status k) :
    check_create_complete k s = .ok false := by
  have hne : s ≠ "available" := by
    intro he
    cases k <;> simp [volume_creating_status, he] at h
  simp [check_create_complete, hne, h]

/-- C1: for every poll of volume creation (either volume kind), the
observed status `'available'` yields `True`, a status in the class's
`_volume_creating_status` list yields `False`, and any other status
raises an error carrying exactly that status string. -/
theorem check_create_complete_trichotomy (k : VolKind) (s : String) :
    (s = "available" → check_create_complete k s = .ok true) ∧
    (s ∈ volume_creating_status k → check_create_complete k s = .ok false) ∧
    (s ≠ "available" → s ∉ volume_creating_status k →
      check_create_complete k s = .error s) := by
  refine ⟨fun h => ?_, check_create_ok_false_of_mem k s, fun h1 h2 => ?_⟩
  · simp [check_create_complete, h]
  · simp [check_create_complete, h1, h2]

/-- Witness for C1: evaluates the trichotomy at kind `aws` with the
in-progress status `'restoring-backup'`. -/
theorem check_create_complete_trichotomy_witness :
    check_create_complete .aws "restoring-backup" = .ok false :=
  (check_create_complete_trichotomy .aws "restoring-backup").2.1 (by decide)

/-- C2 counterexample: a `Volume` (AWS kind) created with no restore
source still treats `'restoring-backup'` as in-progress —
`check_create_complete` returns `False` for it — although the claim's
no-restore in-progress set is exactly `{"creating"}`, which would make
`'restoring-backup'` a fatal status.  The creating set is a class
attribute, not a function of the restore property. -/
theorem creating_set_not_restore_dependent :
    check_create_complete .aws "restoring-backup" = Except.ok false ∧
    "restoring-backup" ∉ spec_creating_set false ∧
    "restoring-backup" ≠ "available" := by
  refine ⟨rfl, by decide, by decide⟩

/-- C2 amended: the still-in-progress set depends only on the resource
class, never on the restore property: `Volume` uses
`['creating', 'restoring-backup']` and `CinderVolume` uses
`['creating', 'restoring-backup', 'downloading']`; for each class,
`check_create_complete` reports not-yet-complete exactly on the statuses
of that class's list. -/
theorem creating_set_by_class (s : String) :
    volume_creating_status .aws = ["creating", "restoring-backup"] ∧
    volume_creating_status .cinder =
      ["creating", "restoring-backup", "downloading"] ∧
    (∀ k, check_create_complete k s = .ok false ↔
      s ∈ volume_creating_status k) := by
  refine ⟨rfl, rfl, fun k => ⟨fun h => ?_, check_create_ok_false_of_mem k s⟩⟩
  by_cases ha : s = "available"
  · simp [check_create_complete, ha] at h
  · by_cases hm : s ∈ volume_creating_status k
    · exact hm
    · simp [check_create_complete, ha, hm] at h

/-- Witness for C2's amended theorem at status `'downloading'`:
in-progress for `CinderVolume` but not for `Volume`. -/
theorem creating_set_by_class_witness :
    check_create_complete .cinder "downloading" = .ok false ∧
    ¬ check_create_complete .aws "downloading" = .ok false := by
  constructor
  · exact ((creating_set_by_class "downloading").2.2 .cinder).mpr (by decide)
  · intro h
    have := ((creating_set_by_class "downloading").2.2 .aws).mp h
    simp [volume_creating_status] at this

/-- The delete wait loop succeeds as soon as `vol.get()` raises
`NotFound`, after any number of intermediate status observations. -/
theorem deleteWait_notfound_success (ss : List String) :
    (deleteWait (ss.map VolObs.status ++ [VolObs.notFound])).2 =
      Outcome.success := by
  induction ss with
  | nil => rfl
  | cons s ss ih => simpa [deleteWait] using ih

/-- C3: deleting a volume whose lookup raises `NotFound` succeeds with no
delete request and no suspension — the sole poll of
`check_delete_complete` returns true at once — and a `NotFound` raised by
any later `vol.get()` during delete polling likewise ends the task
successfully. -/
theorem delete_notfound_idempotent (rid : String) (backup : Bool)
    (rest : List VolObs) (bInit : String) (bGets : List String)
    (s0 : String) (ss : List String) (h0 : s0 ≠ "in-use") :
    ((runVolumeDelete backup ⟨some rid, .notFound :: rest, bInit, bGets⟩).outcome
        = .success ∧
      Ev.deleteVolume ∉
        (runVolumeDelete backup
          ⟨some rid, .notFound :: rest, bInit, bGets⟩).events ∧
      pollBools (runVolumeDelete backup
          ⟨some rid, .notFound :: rest, bInit, bGets⟩).events = [true]) ∧
    (runVolumeDelete false
        ⟨some rid, .status s0 :: (ss.map VolObs.status ++ [VolObs.notFound]),
          bInit, bGets⟩).outcome = .success := by
  refine ⟨⟨rfl, by simp [runVolumeDelete], rfl⟩, ?_⟩
  simp [runVolumeDelete, deleteFromStatus, h0, deleteWait_notfound_success ss]

/-- Witness for C3 at a concrete not-found delete. -/
theorem delete_notfound_idempotent_witness :
    (runVolumeDelete false ⟨some "vol-1", [VolObs.notFound], "", []⟩).outcome
      = Outcome.success :=
  (delete_notfound_idempotent "vol-1" false [] "" [] "deleting" []
    (by decide)).1.1

/-- C7: a delete of an existing volume whose observed status is
`'in-use'` fails with `exception.Error('Volume in use')` and issues no
delete request to the provider. -/
theorem delete_refuses_in_use (rid : String) (rest : List VolObs)
    (bInit : String) (bGets : List String) :
    runVolumeDelete false ⟨some rid, .status "in-use" :: rest, bInit, bGets⟩ =
      ⟨[.getVolume], .failed "Volume in use"⟩ ∧
    Ev.deleteVolume ∉
      (runVolumeDelete false
        ⟨some rid, .status "in-use" :: rest, bInit, bGets⟩).events := by
  refine ⟨?_, ?_⟩ <;> simp [runVolumeDelete, deleteFromStatus]

/-- The backup polling loop only ever gets the backup or suspends; in
particular it never issues a volume delete request. -/
theorem backupPoll_no_delete (st : String) (gets : List String) :
    Ev.deleteVolume ∉ (backupPoll st gets).1 := by
  induction gets generalizing st with
  | nil => by_cases h : st = "creating" <;> simp [backupPoll, h]
  | cons g rest ih => by_cases h : st = "creating" <;> simp [backupPoll, h, ih]

/-- C10: with a pre-delete backup requested, `_delete` creates the backup
(second event, right after the initial volume fetch) and drives it to
completion before checking the status against `'in-use'`: the run fails
with 'Volume in use' — after having issued the backup request and without
issuing a delete — exactly when the post-backup refresh observes
`'in-use'`, regardless of the pre-backup status; conversely a pre-backup
`'in-use'` with a different post-backup status proceeds to the delete
request. -/
theorem delete_backup_precedes_in_use_check (rid s0 : String)
    (bInit : String) (bGets : List String)
    (hb : (backupPoll bInit bGets).2 = some "available") :
    ((runVolumeDelete true
        ⟨some rid, [.status s0, .status "in-use"], bInit, bGets⟩).events.take 2
        = [Ev.getVolume, Ev.createBackup] ∧
      (runVolumeDelete true
        ⟨some rid, [.status s0, .status "in-use"], bInit, bGets⟩).outcome
        = .failed "Volume in use" ∧
      Ev.deleteVolume ∉
        (runVolumeDelete true
          ⟨some rid, [.status s0, .status "in-use"], bInit, bGets⟩).events) ∧
    ((runVolumeDelete true
        ⟨some rid, [.status "in-use", .status "deleting"], bInit,
          bGets⟩).outcome = .pending ∧
      Ev.deleteVolume ∈
        (runVolumeDelete true
          ⟨some rid, [.status "in-use", .status "deleting"], bInit,
            bGets⟩).events) := by
  have hout : (backupRun bInit bGets).outcome = .success := by
    simp [backupRun, hb]
  have hev : (backupRun bInit bGets).events =
      .createBackup :: (backupPoll bInit bGets).1 := rfl
  refine ⟨⟨?_, ?_, ?_⟩, ?_, ?_⟩ <;>
    simp [runVolumeDelete, hout, hev, deleteFromStatus, deleteWait,
      backupPoll_no_delete bInit bGets]

/-- Witness for C10 at a concrete run: backup immediately available,
volume in use at the post-backup check. -/
theorem delete_backup_precedes_in_use_check_witness :
    (runVolumeDelete true
      ⟨some "vol-1", [.status "available", .status "in-use"], "available",
        []⟩).outcome = Outcome.failed "Volume in use" :=
  (delete_backup_precedes_in_use_check "vol-1" "available" "available" []
    rfl).1.2.1

/-- All three possible results of the guarded detach request leave the
same trace: the request is issued and any BadRequest/NotFound is
swallowed. -/
theorem swallow_const (r : DetachRes) :
    delete_server_volume_swallowed r = [Ev.detachReq] := by
  cases r <;> rfl

/-- The detach polling loop is insensitive to the results of the detach
requests it issues. -/
theorem detachLoop_dres_independent (d1 d2 : Nat → DetachRes)
    (gets : List VolObs) :
    ∀ (s : String) (i : Nat), detachLoop d1 s gets i = detachLoop d2 s gets i := by
  induction gets with
  | nil =>
    intro s i
    by_cases h : s = "in-use" ∨ s = "detaching" <;>
      simp [detachLoop, h, swallow_const]
  | cons g rest ih =>
    intro s i
    cases g <;> by_cases h : s = "in-use" ∨ s = "detaching" <;>
      simp [detachLoop, h, swallow_const, ih]

/-- While the observed statuses stay busy (`'in-use'`/`'detaching'`), the
detach loop issues exactly one detach request per suspension, and on the
first non-busy status it succeeds on `'available'` and fails with that
status otherwise. -/
theorem detachLoop_busy_run (d : Nat → DetachRes) (ss : List String) :
    (∀ s ∈ ss, s = "in-use" ∨ s = "detaching") →
    ∀ (i : Nat) (s0 : String), (s0 = "in-use" ∨ s0 = "detaching") →
    ∀ (t : String), ¬ (t = "in-use" ∨ t = "detaching") →
    (detachLoop d s0 (ss.map VolObs.status ++ [VolObs.status t]) i).2
        = (if t = "available" then Outcome.success else .failed t) ∧
    (detachLoop d s0
        (ss.map VolObs.status ++ [VolObs.status t]) i).1.count Ev.detachReq
      = ss.length + 1 ∧
    (detachLoop d s0
        (ss.map VolObs.status ++ [VolObs.status t]) i).1.count Ev.suspend
      = ss.length + 1 := by
  induction ss with
  | nil =>
    intro _ i s0 h0 t ht
    by_cases hta : t = "available" <;>
      simp [detachLoop, h0, ht, hta, swallow_const]
  | cons s ss ih =>
    intro hss i s0 h0 t ht
    have hs : s = "in-use" ∨ s = "detaching" := hss s (by simp)
    have ihs := ih (fun x hx => hss x (by simp [hx])) (i + 1) s hs t ht
    refine ⟨?_, ?_, ?_⟩
    · simp [detachLoop, h0, swallow_const, ihs.1]
    · simp [detachLoop, h0, swallow_const, List.count_cons, List.count_append,
        ihs.2.1]
    · simp [detachLoop, h0, swallow_const, List.count_cons, List.count_append,
        ihs.2.2]

/-- A `NotFound` from a `vol.get()` refresh inside the detach loop ends
the task successfully, after any number of busy observations. -/
theorem detachLoop_notfound_success (d : Nat → DetachRes) (ss : List String) :
    (∀ s ∈ ss, s = "in-use" ∨ s = "detaching") →
    ∀ (i : Nat) (s0 : String), (s0 = "in-use" ∨ s0 = "detaching") →
    (detachLoop d s0 (ss.map VolObs.status ++ [VolObs.notFound]) i).2
      = Outcome.success := by
  induction ss with
  | nil => intro _ i s0 h0; simp [detachLoop, h0]
  | cons s ss ih =>
    intro hss i s0 h0
    have hs : s = "in-use" ∨ s = "detaching" := hss s (by simp)
    have ihs := ih (fun x hx => hss x (by simp [hx])) (i + 1) s hs
    simp [detachLoop, h0, ihs]

/-- C4: the detach task's behaviour is independent of the results of its
detach requests (BadRequest/NotFound are swallowed, never escalated); an
initially absent volume is immediate success with no detach request;
while polls observe `'in-use'`/`'detaching'` the detach request is
re-issued exactly once per suspension (one request per poll tick);
`'available'` ends the task successfully, a `NotFound` at any refresh
likewise, and any other terminal status fails with that status. -/
theorem detach_retry_convergence (d1 d2 : Nat → DetachRes)
    (gets : List VolObs) (found : Bool)
    (ss : List String) (hss : ∀ s ∈ ss, s = "in-use" ∨ s = "detaching")
    (t : String) (ht : ¬ (t = "in-use" ∨ t = "detaching")) :
    runVolumeDetach ⟨found, d1, gets⟩ = runVolumeDetach ⟨found, d2, gets⟩ ∧
    runVolumeDetach ⟨false, d1, gets⟩ = ⟨[.getVolume], .success⟩ ∧
    (runVolumeDetach
        ⟨true, d1, ss.map VolObs.status ++ [VolObs.notFound]⟩).outcome
      = .success ∧
    (runVolumeDetach
        ⟨true, d1, ss.map VolObs.status ++ [VolObs.status t]⟩).outcome
      = (if t = "available" then .success else .failed t) ∧
    (runVolumeDetach
        ⟨true, d1, ss.map VolObs.status ++
          [VolObs.status t]⟩).events.count Ev.detachReq = ss.length + 1 ∧
    (runVolumeDetach
        ⟨true, d1, ss.map VolObs.status ++
          [VolObs.status t]⟩).events.count Ev.suspend = ss.length + 1 := by
  refine ⟨?_, ?_, ?_, ?_, ?_, ?_⟩
  · cases gets with
    | nil => simp [runVolumeDetach, swallow_const]
    | cons g rest =>
      cases g <;>
        simp [runVolumeDetach, swallow_const,
          detachLoop_dres_independent d1 d2]
  · simp [runVolumeDetach]
  · cases ss with
    | nil => simp [runVolumeDetach]
    | cons s ss =>
      have hs : s = "in-use" ∨ s = "detaching" := hss s (by simp)
      simp [runVolumeDetach,
        detachLoop_notfound_success d1 ss
          (fun x hx => hss x (by simp [hx])) 1 s hs]
  · cases ss with
    | nil => by_cases hta : t = "available" <;>
        simp [runVolumeDetach, detachLoop, ht, hta]
    | cons s ss =>
      have hs : s = "in-use" ∨ s = "detaching" := hss s (by simp)
      simp [runVolumeDetach,
        (detachLoop_busy_run d1 ss
          (fun x hx => hss x (by simp [hx])) 1 s hs t ht).1]
  · cases ss with
    | nil =>
      by_cases hta : t = "available" <;>
        simp [runVolumeDetach, detachLoop, ht, hta, swallow_const,
          List.count_cons, List.count_append]
    | cons s ss =>
      have hs : s = "in-use" ∨ s = "detaching" := hss s (by simp)
      have h := (detachLoop_busy_run d1 ss
        (fun x hx => hss x (by simp [hx])) 1 s hs t ht).2.1
      simp [runVolumeDetach, swallow_const, List.count_cons,
        List.count_append, h]
  · cases ss with
    | nil =>
      by_cases hta : t = "available" <;>
        simp [runVolumeDetach, detachLoop, ht, hta, swallow_const,
          List.count_cons, List.count_append]
    | cons s ss =>
      have hs : s = "in-use" ∨ s = "detaching" := hss s (by simp)
      have h := (detachLoop_busy_run d1 ss
        (fun x hx => hss x (by simp [hx])) 1 s hs t ht).2.2
      simp [runVolumeDetach, swallow_const, List.count_cons,
        List.count_append, h]

/-- While the observed statuses stay `'available'`/`'attaching'` the
attach loop keeps polling; on the first other status it succeeds exactly
on `'in-use'` and fails with that status otherwise. -/
theorem attachLoop_run (ss : List String) :
    (∀ s ∈ ss, s = "available" ∨ s = "attaching") →
    ∀ (s0 : String), (s0 = "available" ∨ s0 = "attaching") →
    ∀ (t : String), ¬ (t = "available" ∨ t = "attaching") →
    (attachLoop s0 (ss ++ [t])).2
      = (if t = "in-use" then Outcome.success else .failed t) := by
  induction ss with
  | nil =>
    intro _ s0 h0 t ht
    by_cases hti : t = "in-use" <;> simp [attachLoop, h0, ht, hti]
  | cons s ss ih =>
    intro hss s0 h0 t ht
    have hs := hss s (by simp)
    simp [attachLoop, h0, ih (fun x hx => hss x (by simp [hx])) s hs t ht]

/-- C6: the attach task records the attachment id before its first
suspension — the events `handle_create` executes during `start()` are
exactly the attach request followed by the id assignment, so the handle
returned by `VolumeAttachment.handle_create` carries
`resource_id = some va_id` before any completion poll; polling then
reports not-complete while the status is `'available'`/`'attaching'`,
complete on `'in-use'`, and fails carrying any other terminal status; in
particular the status sequence `['attaching', 'in-use']` yields the poll
results `[false, true]`. -/
theorem attach_id_recorded_before_poll (env : AttachEnv) (va : String)
    (ss : List String) (hss : ∀ s ∈ ss, s = "available" ∨ s = "attaching")
    (t : String) (ht : ¬ (t = "available" ∨ t = "attaching")) :
    startEvents (runVolumeAttach env).events
        = [Ev.attachReq, Ev.setAttachmentId] ∧
    (VolumeAttachment_handle_create env).resource_id = some env.va_id ∧
    (runVolumeAttach ⟨va, ss ++ [t]⟩).outcome
      = (if t = "in-use" then Outcome.success else .failed t) ∧
    pollBools (runVolumeAttach ⟨va, ["attaching", "in-use"]⟩).events
      = [false, true] := by
  have h1 : startEvents (runVolumeAttach env).events
      = [Ev.attachReq, Ev.setAttachmentId] := by
    cases hg : env.volGets <;> simp [runVolumeAttach, hg, startEvents]
  refine ⟨h1, ?_, ?_, ?_⟩
  · simp [VolumeAttachment_handle_create, h1]
  · cases ss with
    | nil =>
      by_cases hti : t = "in-use" <;>
        simp [runVolumeAttach, attachLoop, ht, hti]
    | cons s ss2 =>
      have hs := hss s (by simp)
      simp [runVolumeAttach,
        attachLoop_run ss2 (fun x hx => hss x (by simp [hx])) s hs t ht]
  · simp [runVolumeAttach, attachLoop, pollBools, afterStart, pollAux]

/-- Witness for C6 at the spec's scenario: attach returning id
`'att-1'`, statuses `['attaching', 'in-use']`. -/
theorem attach_id_recorded_before_poll_witness :
    (VolumeAttachment_handle_create
      ⟨"att-1", ["attaching", "in-use"]⟩).resource_id = some "att-1" :=
  (attach_id_recorded_before_poll ⟨"att-1", ["attaching", "in-use"]⟩ "att-1"
    ["attaching"] (by decide) "in-use" (by decide)).2.1

/-- Witness for C4 at the spec's scenario: polls observe `'in-use'`,
`'detaching'`, `'in-use'`, `'available'`; all detach requests raise
`NotFound`; the task succeeds having issued four detach requests. -/
theorem detach_retry_convergence_witness :
    (runVolumeDetach ⟨true, fun _ => DetachRes.notFound,
      [VolObs.status "in-use", VolObs.status "detaching",
        VolObs.status "in-use",
        VolObs.status "available"]⟩).events.count Ev.detachReq = 4 :=
  (detach_retry_convergence (fun _ => DetachRes.notFound)
    (fun _ => DetachRes.badRequest) [] true ["in-use", "detaching", "in-use"]
    (by decide) "available" (by decide)).2.2.2.2.1

/-- The events executed by `start()` never include a suspension
marker. -/
theorem startEvents_no_suspend (evs : List Ev) :
    Ev.suspend ∉ startEvents evs := by
  induction evs with
  | nil => simp [startEvents]
  | cons e rest ih => cases e <;> simp [startEvents, ih]

/-- A run with a suspension splits into the events `start()` executes,
the first suspension, and the events the later `step()` calls drive. -/
theorem startEvents_append (evs : List Ev) :
    Ev.suspend ∈ evs →
    startEvents evs ++ Ev.suspend :: afterStart evs = evs := by
  induction evs with
  | nil => intro h; simp at h
  | cons e rest ih =>
    intro h
    cases e <;> simp [startEvents, afterStart] <;>
      exact ih (by simpa using h)

/-- A detach task on an existing volume always reaches at least one
suspension point. -/
theorem detach_has_suspension (env : DetachEnv) (h : env.volFound = true) :
    Ev.suspend ∈ (runVolumeDetach env).events := by
  cases hg : env.volGets with
  | nil => simp [runVolumeDetach, h, hg, swallow_const]
  | cons g rest =>
    cases g <;> simp [runVolumeDetach, h, hg, swallow_const]

/-- C5 counterexample: `VolumeAttachment.handle_delete` executes its
whole detach task — two suspensions deep, through to successful
completion — before returning, not just the events up to the first
suspension, so the begin call runs the operation to completion. -/
theorem handle_delete_runs_to_completion :
    (VolumeAttachment_handle_delete
        ⟨true, fun _ => DetachRes.ok,
          [VolObs.status "in-use", VolObs.status "available"]⟩).1 ≠
      startEvents (runVolumeDetach
        ⟨true, fun _ => DetachRes.ok,
          [VolObs.status "in-use", VolObs.status "available"]⟩).events ∧
    (VolumeAttachment_handle_delete
        ⟨true, fun _ => DetachRes.ok,
          [VolObs.status "in-use", VolObs.status "available"]⟩).2
      = Outcome.success ∧
    (runVolumeDetach
        ⟨true, fun _ => DetachRes.ok,
          [VolObs.status "in-use",
            VolObs.status "available"]⟩).events.count Ev.suspend = 2 := by
  refine ⟨by decide, by decide, by decide⟩

/-- C5 amended: `Volume.handle_delete` (like
`VolumeAttachment.handle_create`) only starts its task — the events it
executes, followed by the first suspension and the remainder later
driven by `check_delete_complete` polls, make up the full run — but
`VolumeAttachment.handle_delete` executes its task's entire trace,
completing the detach before returning instead of handing back a
steppable handle. -/
theorem handle_calls_step_vs_run (backup : Bool) (denv : DeleteEnv)
    (env : DetachEnv) (h : env.volFound = true)
    (hs : Ev.suspend ∈ (runVolumeDelete backup denv).events) :
    ((Volume_handle_delete backup denv).1 ++
        Ev.suspend :: (Volume_handle_delete backup denv).2
      = (runVolumeDelete backup denv).events) ∧
    (VolumeAttachment_handle_delete env).1 = (runVolumeDetach env).events ∧
    (VolumeAttachment_handle_delete env).1 ≠
      startEvents (runVolumeDetach env).events := by
  refine ⟨startEvents_append _ hs, rfl, fun he => ?_⟩
  have hmem : Ev.suspend ∈ startEvents (runVolumeDetach env).events := by
    rw [← he]
    exact detach_has_suspension env h
  exact startEvents_no_suspend _ hmem

/-- Witness for C5's amended theorem: a delete observing `'deleting'`
(which suspends) and a detach on an existing volume observing
`'available'`. -/
theorem handle_calls_step_vs_run_witness :
    (VolumeAttachment_handle_delete
        ⟨true, fun _ => DetachRes.ok, [VolObs.status "available"]⟩).1
      = (runVolumeDetach
        ⟨true, fun _ => DetachRes.ok, [VolObs.status "available"]⟩).events :=
  (handle_calls_step_vs_run false
    ⟨some "vol-1", [VolObs.status "deleting"], "", []⟩
    ⟨true, fun _ => DetachRes.ok, [VolObs.status "available"]⟩
    rfl (by decide)).2.1

/-- String append is associative (on the underlying character data). -/
theorem string_append_assoc (s t u : String) :
    s ++ t ++ u = s ++ (t ++ u) := by
  apply String.ext
  simp [String.data_append]

/-- C8: when fetching the template fails, both `handle_create` and
`handle_update` raise a `ValueError` whose message names the template
URL and the underlying cause, and neither delegates to the child stack:
the only event of either call is the fetch itself. -/
theorem nested_stack_fetch_failure (url cause : String) :
    NestedStack_handle_create ⟨url, .error cause⟩
        = ([.fetchTemplate], .error (fetchErrorMsg url cause)) ∧
    NestedStack_handle_update ⟨url, .error cause⟩
        = ([.fetchTemplate], .error (fetchErrorMsg url cause)) ∧
    (∃ a b, fetchErrorMsg url cause = a ++ url ++ b) ∧
    (∃ c, fetchErrorMsg url cause = c ++ cause) ∧
    NSEv.createWithTemplate ∉ (NestedStack_handle_create ⟨url, .error cause⟩).1 ∧
    NSEv.updateWithTemplate ∉ (NestedStack_handle_update ⟨url, .error cause⟩).1 := by
  refine ⟨rfl, rfl, ⟨_, _, rfl⟩, ⟨"Could not fetch remote template \x27" ++ url
    ++ "\x27: ", ?_⟩, by simp [NestedStack_handle_create],
    by simp [NestedStack_handle_update]⟩
  simp [fetchErrorMsg, string_append_assoc]

/-- C9 counterexample: the empty attribute key does not start with
`'Outputs.'`, yet `FnGetAtt` does not raise — it forwards
`get_output('')` to the child stack, because the guard on stack.py line
76 requires a truthy key. -/
theorem fngetatt_empty_key_forwarded :
    NestedStack_FnGetAtt "" = Except.ok "" ∧
    "Outputs.".data.isPrefixOf "".data = false := by
  refine ⟨?_, by decide⟩
  simp [NestedStack_FnGetAtt, partitionTail, charsAfterFirstDot]

/-- C9 amended: every non-empty attribute key that does not start with
`'Outputs.'` raises `InvalidTemplateAttribute` carrying the key; a key
under `'Outputs.'` is forwarded to the child stack's output lookup with
the part after the first dot; and the empty key is forwarded (as the
empty output name) rather than rejected. -/
theorem fngetatt_namespace_check (key : String) :
    (key ≠ "" → "Outputs.".data.isPrefixOf key.data = false →
      NestedStack_FnGetAtt key = .error key) ∧
    ("Outputs.".data.isPrefixOf key.data = true →
      NestedStack_FnGetAtt key = .ok (partitionTail key)) ∧
    NestedStack_FnGetAtt "" = .ok "" := by
  refine ⟨fun h1 h2 => ?_, fun h => ?_,
    by simp [NestedStack_FnGetAtt, partitionTail, charsAfterFirstDot]⟩
  · simp [NestedStack_FnGetAtt, h1, h2]
  · simp [NestedStack_FnGetAtt, h]

/-- Witness for C9's amended theorem: the key `'Foo'` is rejected, and
`'Outputs.Foo'` is forwarded as the output name `'Foo'`. -/
theorem fngetatt_namespace_check_witness :
    NestedStack_FnGetAtt "Foo" = .error "Foo" ∧
    NestedStack_FnGetAtt "Outputs.Foo" = .ok (partitionTail "Outputs.Foo") :=
  ⟨(fngetatt_namespace_check "Foo").1 (by decide) (by decide),
    (fngetatt_namespace_check "Outputs.Foo").2.1 (by decide)⟩

end Heat
